/-
Verification of the replay-data-lambda reconstruction engine
(src/lambda/index.mjs) against its natural-language specification.

The JavaScript handler is shallowly embedded: Athena result rows are
modelled as typed records (the source applies Number(...) to every
numeric string field, so a well-formed numeric string behaves exactly
as its rational value), JavaScript numbers that can be NaN are
modelled by `JsNum`, stateful flows (cache lookup/store, the Athena
status-poll loop) are modelled by explicit state passing.
-/
import Mathlib

namespace ReplayLambda

/-- JavaScript number: either NaN (e.g. `Number(undefined)`) or a rational. -/
inductive JsNum where
  | nan : JsNum
  | num : ℚ → JsNum
deriving DecidableEq

/-- JavaScript value as it appears in the assembled settings objects:
string, number or boolean. -/
inductive JsVal where
  | vStr : String → JsVal
  | vNum : JsNum → JsVal
  | vBool : Bool → JsVal
deriving DecidableEq

/-! ### Platform change rows and the sparse state resolver

A row of the `platforms` query result.  The source reads
`change.frame`, `change.platform` and `change.platform_height`,
coercing with `Number(...)`; fields are modelled post-coercion. -/

structure PlatformRow where
  frame : Int
  platform : Int
  platform_height : ℚ
deriving DecidableEq

/-- The loop body of `getPlatformHeightAtFrame` (src/lambda/index.mjs
lines 106-117): scan the change list, break at the first change whose
frame exceeds `currentFrame`, otherwise remember its height. -/
def scanPlatformHeight : List PlatformRow → Int → Option ℚ → Option ℚ
  | [], _, acc => acc
  | c :: rest, currentFrame, acc =>
    if c.frame > currentFrame then acc
    else scanPlatformHeight rest currentFrame (some c.platform_height)

/-- `getPlatformHeightAtFrame(changes, currentFrame, defaultHeight)`:
returns the tracked height, or `defaultHeight` when the scan never
recorded one (`height !== null ? height : defaultHeight`). -/
def getPlatformHeightAtFrame (changes : List PlatformRow) (currentFrame : Int)
    (defaultHeight : ℚ) : ℚ :=
  (scanPlatformHeight changes currentFrame none).getD defaultHeight

/-- Spec-side description of the resolver (written from the spec, for
comparison with the source function): the last event in list order
whose frame is at most the target frame. -/
def lastEventLE (events : List PlatformRow) (targetFrame : Int) : Option PlatformRow :=
  (events.filter (fun e => e.frame ≤ targetFrame)).getLast?

/-! ### Frame rows and the per-player snapshot

One row of the `frames` query per (frame, player).  Every field the
handler reads through `Number(...)` is modelled with its numeric
value; `follower`, `airborne` and `alive` are read as raw strings by
the source (`frame.follower === 'true'`, `!frame.airborne`,
`!frame.alive`) and stay strings here. -/

structure FrameRow where
  frame_number : Int
  player_index : Int
  follower : String
  buttons : Nat
  phys_l : ℚ
  phys_r : ℚ
  joy_x : ℚ
  joy_y : ℚ
  c_x : ℚ
  c_y : ℚ
  char_id : ℚ
  action_post : ℚ
  pos_x_post : ℚ
  pos_y_post : ℚ
  face_dir_post : ℚ
  percent_post : ℚ
  shield : ℚ
  hit_with : ℚ
  combo : ℚ
  hurt_by : ℚ
  stocks : ℚ
  action_fc : ℚ
  hitstun : ℚ
  airborne : String
  ground_id : ℚ
  jumps : ℚ
  l_cancel : ℚ
  hurtbox : ℚ
  self_air_x : ℚ
  self_air_y : ℚ
  attack_x : ℚ
  attack_y : ℚ
  self_grd_x : ℚ
  hitlag : ℚ
  alive : String
  seed : ℚ

/-- The `physical` input view (index.mjs lines 310-325). -/
structure PhysicalButtons where
  dPadLeft : Bool
  dPadRight : Bool
  dPadDown : Bool
  dPadUp : Bool
  z : Bool
  rTriggerAnalog : ℚ
  rTriggerDigital : Bool
  lTriggerAnalog : ℚ
  lTriggerDigital : Bool
  a : Bool
  b : Bool
  x : Bool
  y : Bool
  start : Bool
deriving DecidableEq

/-- The `processed` input view (index.mjs lines 326-344). -/
structure ProcessedButtons where
  dPadLeft : Bool
  dPadRight : Bool
  dPadDown : Bool
  dPadUp : Bool
  z : Bool
  rTriggerDigital : Bool
  lTriggerDigital : Bool
  a : Bool
  b : Bool
  x : Bool
  y : Bool
  start : Bool
  joystickX : ℚ
  joystickY : ℚ
  cStickX : ℚ
  cStickY : ℚ
  anyTrigger : ℚ
deriving DecidableEq

structure PlayerInputs where
  frameNumber : Int
  playerIndex : Int
  isNana : Bool
  physical : PhysicalButtons
  processed : ProcessedButtons
deriving DecidableEq

/-- The per-player `state` view (index.mjs lines 346-377), with the
additive `playerStateDefaults` from defaults.mjs merged in. -/
structure PlayerState where
  frameNumber : Int
  playerIndex : Int
  isNana : Bool
  internalCharacterId : ℚ
  actionStateId : ℚ
  xPosition : ℚ
  yPosition : ℚ
  facingDirection : ℚ
  percent : ℚ
  shieldSize : ℚ
  lastHittingAttackId : ℚ
  currentComboCount : ℚ
  lastHitBy : ℚ
  stocksRemaining : ℚ
  actionStateFrameCounter : ℚ
  hitstunRemaining : ℚ
  isGrounded : Bool
  lastGroundId : ℚ
  jumpsRemaining : ℚ
  lCancelStatus : ℚ
  hurtboxCollisionState : ℚ
  selfInducedAirXSpeed : ℚ
  selfInducedAirYSpeed : ℚ
  attackBasedXSpeed : ℚ
  attackBasedYSpeed : ℚ
  selfInducedGroundXSpeed : ℚ
  hitlagRemaining : ℚ
  isInHitstun : Bool
  isDead : Bool
  isReflectActive : Bool
  isFastfalling : Bool
  isShieldActive : Bool
  isHittingShield : Bool
  isPowershieldActive : Bool
  isOffscreen : Bool
deriving DecidableEq

structure PlayerEntry where
  frameNumber : Int
  playerIndex : Int
  inputs : PlayerInputs
  state : PlayerState
deriving DecidableEq

/-- `Boolean(frame.buttons & mask)`: true exactly when the masked bits
are non-zero. -/
def buttonBit (buttons mask : Nat) : Bool := buttons &&& mask != 0

/-- Construction of one element of `players` (index.mjs lines 302-379).
JavaScript string truthiness: `!frame.airborne` and `!frame.alive` are
true only for the empty string. -/
def buildPlayer (frame : FrameRow) : PlayerEntry :=
  { frameNumber := frame.frame_number
    playerIndex := frame.player_index
    inputs :=
      { frameNumber := frame.frame_number
        playerIndex := frame.player_index
        isNana := frame.follower == "true"
        physical :=
          { dPadLeft := buttonBit frame.buttons 0x0001
            dPadRight := buttonBit frame.buttons 0x0002
            dPadDown := buttonBit frame.buttons 0x0004
            dPadUp := buttonBit frame.buttons 0x0008
            z := buttonBit frame.buttons 0x0010
            rTriggerAnalog := frame.phys_r
            rTriggerDigital := buttonBit frame.buttons 0x0020
            lTriggerAnalog := frame.phys_l
            lTriggerDigital := buttonBit frame.buttons 0x0040
            a := buttonBit frame.buttons 0x0100
            b := buttonBit frame.buttons 0x0200
            x := buttonBit frame.buttons 0x0400
            y := buttonBit frame.buttons 0x0800
            start := buttonBit frame.buttons 0x1000 }
        processed :=
          { dPadLeft := buttonBit frame.buttons 0x0001
            dPadRight := buttonBit frame.buttons 0x0002
            dPadDown := buttonBit frame.buttons 0x0004
            dPadUp := buttonBit frame.buttons 0x0008
            z := buttonBit frame.buttons 0x0010
            rTriggerDigital := buttonBit frame.buttons 0x0020
            lTriggerDigital := buttonBit frame.buttons 0x0040
            a := buttonBit frame.buttons 0x0100
            b := buttonBit frame.buttons 0x0200
            x := buttonBit frame.buttons 0x0400
            y := buttonBit frame.buttons 0x0800
            start := buttonBit frame.buttons 0x1000
            joystickX := frame.joy_x
            joystickY := frame.joy_y
            cStickX := frame.c_x
            cStickY := frame.c_y
            anyTrigger := max frame.phys_l frame.phys_r } }
    state :=
      { frameNumber := frame.frame_number
        playerIndex := frame.player_index
        isNana := frame.follower == "true"
        internalCharacterId := frame.char_id
        actionStateId := frame.action_post
        xPosition := frame.pos_x_post
        yPosition := frame.pos_y_post
        facingDirection := frame.face_dir_post
        percent := frame.percent_post
        shieldSize := frame.shield
        lastHittingAttackId := frame.hit_with
        currentComboCount := frame.combo
        lastHitBy := frame.hurt_by
        stocksRemaining := frame.stocks
        actionStateFrameCounter := frame.action_fc
        hitstunRemaining := frame.hitstun
        isGrounded := frame.airborne == ""
        lastGroundId := frame.ground_id
        jumpsRemaining := frame.jumps
        lCancelStatus := frame.l_cancel
        hurtboxCollisionState := frame.hurtbox
        selfInducedAirXSpeed := frame.self_air_x
        selfInducedAirYSpeed := frame.self_air_y
        attackBasedXSpeed := frame.attack_x
        attackBasedYSpeed := frame.attack_y
        selfInducedGroundXSpeed := frame.self_grd_x
        hitlagRemaining := frame.hitlag
        isInHitstun := frame.hitstun > 0
        isDead := frame.alive == ""
        isReflectActive := false
        isFastfalling := false
        isShieldActive := false
        isHittingShield := false
        isPowershieldActive := false
        isOffscreen := false } }

/-! ### Item rows and item entries -/

/-- One row of the `items` query, fields named by the query's column
aliases (index.mjs lines 214-233), modelled post-`Number` coercion. -/
structure ItemRow where
  frameNumber : Int
  typeId : ℚ
  state : ℚ
  facingDirection : ℚ
  xVelocity : ℚ
  yVelocity : ℚ
  xPosition : ℚ
  yPosition : ℚ
  spawnId : ℚ
  samusMissileType : ℚ
  peachTurnipFace : ℚ
  isChargeShotLaunched : ℚ
  chargeShotLevel : ℚ
  owner : ℚ
deriving DecidableEq

/-- One element of a frame's `items` list (index.mjs lines 387-404).
The source reads `itemFrame.matchId`, which the items query never
selects, so the field is always `undefined` (modelled `none`); it
also reads `itemFrame.isChargedShotLaunched`, but the query aliases
the column `isChargeShotLaunched` (no second `d`), so the read is
`undefined` and `Number(undefined)` is NaN. -/
structure ItemEntry where
  matchId : Option String
  frameNumber : Int
  typeId : ℚ
  state : ℚ
  facingDirection : ℚ
  xVelocity : ℚ
  yVelocity : ℚ
  xPosition : ℚ
  yPosition : ℚ
  spawnId : ℚ
  samusMissileType : ℚ
  peachTurnipFace : ℚ
  isChargedShotLaunched : JsNum
  chargeShotLevel : ℚ
  owner : ℚ
  damageTaken : ℚ
  expirationTimer : ℚ
deriving DecidableEq

def buildItem (itemFrame : ItemRow) : ItemEntry :=
  { matchId := none
    frameNumber := itemFrame.frameNumber
    typeId := itemFrame.typeId
    state := itemFrame.state
    facingDirection := itemFrame.facingDirection
    xVelocity := itemFrame.xVelocity
    yVelocity := itemFrame.yVelocity
    xPosition := itemFrame.xPosition
    yPosition := itemFrame.yPosition
    spawnId := itemFrame.spawnId
    samusMissileType := itemFrame.samusMissileType
    peachTurnipFace := itemFrame.peachTurnipFace
    isChargedShotLaunched := JsNum.nan
    chargeShotLevel := itemFrame.chargeShotLevel
    owner := itemFrame.owner
    damageTaken := 0
    expirationTimer := 0 }

/-! ### Stage state, frame grouping and the assembled frame list -/

structure StageState where
  frameNumber : Int
  fodLeftPlatformHeight : ℚ
  fodRightPlatformHeight : ℚ
deriving DecidableEq

structure ReplayFrame where
  frameNumber : Int
  randomSeed : ℚ
  players : List PlayerEntry
  items : List ItemEntry
  stage : StageState
deriving DecidableEq

/-- Comparator used by `players.sort((a, b) => a.playerIndex - b.playerIndex)`. -/
def playerLE (a b : PlayerEntry) : Prop := a.playerIndex ≤ b.playerIndex

instance : DecidableRel playerLE := fun _ _ => Int.decLe _ _

instance : IsTotal PlayerEntry playerLE := ⟨fun _ _ => Int.le_total _ _⟩

instance : IsTrans PlayerEntry playerLE := ⟨fun _ _ _ => Int.le_trans⟩

/-- Comparator used by `.sort((a, b) => a.frame - b.frame)` on platform rows. -/
def platformFrameLE (a b : PlatformRow) : Prop := a.frame ≤ b.frame

instance : DecidableRel platformFrameLE := fun _ _ => Int.decLe _ _

instance : IsTotal PlatformRow platformFrameLE := ⟨fun _ _ => Int.le_total _ _⟩

instance : IsTrans PlatformRow platformFrameLE := ⟨fun _ _ _ => Int.le_trans⟩

/-- Side-specific fallback constants passed to `getPlatformHeightAtFrame`
(index.mjs lines 413 and 418). -/
def fodLeftDefaultHeight : ℚ := 20
def fodRightDefaultHeight : ℚ := 27.44186047

/-- The `stageState` object built for one output frame (index.mjs lines
408-420): per side, filter the platform rows (`platform == 1` is the
left side, `platform == 0` the right), sort ascending by frame, and
resolve the height at this frame with the side's fallback. -/
def buildStage (platformFrames : List PlatformRow) (frameNumber : Int) : StageState :=
  { frameNumber := frameNumber
    fodLeftPlatformHeight := getPlatformHeightAtFrame
      (List.insertionSort platformFrameLE
        (platformFrames.filter (fun frame => decide (frame.platform = 1))))
      frameNumber fodLeftDefaultHeight
    fodRightPlatformHeight := getPlatformHeightAtFrame
      (List.insertionSort platformFrameLE
        (platformFrames.filter (fun frame => decide (frame.platform = 0))))
      frameNumber fodRightDefaultHeight }

/-- One step of building `groupedFrames` (index.mjs lines 286-294): a
JavaScript `Map` keeps keys in insertion order, so a new key is
appended at the end and an existing key has the row pushed onto its
list. -/
def insertGrouped (m : List (Int × List FrameRow)) (k : Int) (row : FrameRow) :
    List (Int × List FrameRow) :=
  match m with
  | [] => [(k, [row])]
  | (k', g) :: rest =>
    if k' = k then (k', g ++ [row]) :: rest else (k', g) :: insertGrouped rest k row

/-- `groupedFrames` built by iterating `framesResult` in order. -/
def groupFrames (rows : List FrameRow) : List (Int × List FrameRow) :=
  rows.foldl (fun m row => insertGrouped m row.frame_number row) []

/-- The key sequence a JavaScript `Map` ends up with: each frame
number at its first occurrence. -/
def firstOccurs (l : List Int) : List Int :=
  l.foldl (fun ks k => if k ∈ ks then ks else ks ++ [k]) []

/-- One entry of the output `frames` array (index.mjs lines 298-428),
built from one `groupedFrames` entry. -/
def buildFrame (itemFrames : List ItemRow) (platformFrames : List PlatformRow)
    (frameNumber : Int) (frameGroup : List FrameRow) : ReplayFrame :=
  { frameNumber := frameNumber
    randomSeed := ((frameGroup.head?).map FrameRow.seed).getD 0
    players := List.insertionSort playerLE (frameGroup.map buildPlayer)
    items := (itemFrames.filter (fun itemFrame => decide (itemFrame.frameNumber = frameNumber))).map buildItem
    stage := buildStage platformFrames frameNumber }

/-- The full `frames` array assembled from the three query results. -/
def assembleFrames (framesResult : List FrameRow) (itemFrames : List ItemRow)
    (platformFrames : List PlatformRow) : List ReplayFrame :=
  (groupFrames framesResult).map (fun p => buildFrame itemFrames platformFrames p.1 p.2)

/-! ### Request validation (index.mjs lines 133-139)

`if (!matchId || !frameStart || !frameEnd)` rejects with a 400 and the
message naming missing fields.  JavaScript falsiness on the parsed
request fields: the empty string for `matchId`, the number 0 for
`frameStart` / `frameEnd` (the claims restrict the frame fields to
integers). -/

inductive ValidationOutcome where
  | rejected : ValidationOutcome
  | proceeds : ValidationOutcome
deriving DecidableEq

def validateRequest (matchId : String) (frameStart frameEnd : Int) : ValidationOutcome :=
  if matchId == "" || frameStart == 0 || frameEnd == 0 then .rejected else .proceeds

/-! ### The Athena status-poll loop (index.mjs lines 72-87)

Modelled over the finite list of poll responses the loop consumes.
`state = status.QueryExecution?.Status?.State ?? 'FAILED'` reads an
optional state, defaulting to FAILED; a FAILED state throws
`Query failed: <StateChangeReason>`; QUEUED/RUNNING keep polling; any
other state leaves the loop, after which `GetQueryResultsCommand` is
sent. -/

inductive QueryState where
  | QUEUED | RUNNING | SUCCEEDED | FAILED | CANCELLED
deriving DecidableEq

structure PollResponse where
  state : Option QueryState
  reason : Option String
deriving DecidableEq

/-- Effective state of one poll: missing state defaults to FAILED. -/
def effectiveState (p : PollResponse) : QueryState := p.state.getD .FAILED

/-- Message of the error thrown on a FAILED poll; a missing
`StateChangeReason` interpolates as the string `undefined`. -/
def queryFailedMessage (reason : Option String) : String :=
  "Query failed: " ++ reason.getD "undefined"

inductive PollOutcome where
  /-- The loop threw `new Error('Query failed: ...')`. -/
  | threw : String → PollOutcome
  /-- The loop exited with this state and `GetQueryResultsCommand` was sent. -/
  | fetchResults : QueryState → PollOutcome
  /-- The modelled poll-response list ran out while the state was still
  non-terminal (the real loop would continue polling). -/
  | exhausted : PollOutcome
deriving DecidableEq

def pollLoop : QueryState → List PollResponse → PollOutcome
  | s, polls =>
    if s = .QUEUED ∨ s = .RUNNING then
      match polls with
      | [] => .exhausted
      | p :: rest =>
        if effectiveState p = .FAILED then .threw (queryFailedMessage p.reason)
        else pollLoop (effectiveState p) rest
    else .fetchResults s

/-- `runAthenaQuery`'s wait loop starts from `let state = 'QUEUED'`. -/
def runAthenaQueryPoll (polls : List PollResponse) : PollOutcome :=
  pollLoop .QUEUED polls

/-! ### The replay cache (index.mjs lines 25-50 and 141-154, 444-462)

The S3 body is a string; the handler stores `JSON.stringify(payload)`
and, on a hit, returns `JSON.stringify(JSON.parse(body))`.  The
serializer pair is abstracted by `CacheModel`; JavaScript `JSON`
satisfies `parse (stringify v) = v` on the values at issue. -/

structure CacheModel (V : Type) where
  stringify : V → String
  parse : String → V

/-- `getReplayCacheKey` (index.mjs lines 25-27). -/
def getReplayCacheKey (matchId : String) (frameStart frameEnd : Int) : String :=
  "replays/" ++ matchId ++ "-" ++ toString frameStart ++ "-" ++ toString frameEnd ++ ".json"

/-- Result of the S3 `GetObjectCommand`: a body, or an error with its
`err.name` (a missing key raises the error named `NoSuchKey`). -/
inductive S3GetOutcome where
  | found : String → S3GetOutcome
  | failed : String → S3GetOutcome
deriving DecidableEq

/-- Result of the S3 `PutObjectCommand`. -/
inductive S3PutOutcome where
  | ok : S3PutOutcome
  | failed : String → S3PutOutcome
deriving DecidableEq

/-- `tryGetCachedReplay` (index.mjs lines 29-41): returns the parsed
body on success; on any error returns `null`, logging
`Cache miss error` unless the error is named `NoSuchKey`.  The result
pairs the returned value with the log lines emitted. -/
def tryGetCachedReplay (res : S3GetOutcome) : Option String × List String :=
  match res with
  | .found body => (some body, [])
  | .failed errName =>
    (none, if errName == "NoSuchKey" then [] else ["Cache miss error: " ++ errName])

structure HandlerOutcome where
  statusCode : Nat
  /-- Body of a 200 response (the serialized replay). -/
  body : Option String
  /-- `error` field of a 500 response (`err.message || 'Internal error'`). -/
  errorMessage : Option String
  /-- Whether the Athena query-execution path ran. -/
  queryInvoked : Bool
  logs : List String
deriving DecidableEq

/-- The cache-wrapped tail of the handler (index.mjs lines 141-154 and
435-462): on a cache hit return the re-serialized cached replay; on a
miss compute the replay, `await cacheReplayJson(...)` — whose failure
is caught by the top-level catch and surfaced as a 500 — and return
the serialized replay. -/
def handlerCacheFlow {V : Type} (M : CacheModel V) (getRes : S3GetOutcome)
    (putRes : S3PutOutcome) (compute : V) : HandlerOutcome :=
  match tryGetCachedReplay getRes with
  | (some body, logs) =>
    { statusCode := 200, body := some (M.stringify (M.parse body)),
      errorMessage := none, queryInvoked := false, logs := logs }
  | (none, logs) =>
    let body := M.stringify compute
    match putRes with
    | .ok =>
      { statusCode := 200, body := some body, errorMessage := none,
        queryInvoked := true, logs := logs }
    | .failed msg =>
      { statusCode := 500, body := none,
        errorMessage := some (if msg == "" then "Internal error" else msg),
        queryInvoked := true, logs := logs }

/-- S3 `GetObjectCommand` against a key-value store: a missing key is
the error named `NoSuchKey`. -/
def s3Get (store : List (String × String)) (key : String) : S3GetOutcome :=
  match store.lookup key with
  | some body => .found body
  | none => .failed "NoSuchKey"

/-- One whole request against the store (no injected faults): the flow
above plus the `PutObjectCommand` write performed on the compute path. -/
def handlerOnce {V : Type} (M : CacheModel V) (compute : V)
    (store : List (String × String)) (key : String) :
    HandlerOutcome × List (String × String) :=
  let out := handlerCacheFlow M (s3Get store key) .ok compute
  (out, if out.queryInvoked then (key, M.stringify compute) :: store else store)

/-- A trivial serializer pair over `Unit`, used to instantiate the
cache theorems at a concrete input. -/
def unitCacheModel : CacheModel Unit :=
  { stringify := fun _ => "cached", parse := fun _ => () }

/-! ### Match settings assembly (index.mjs lines 157-176)

`runAthenaQuery` turns each data row into an object keyed by the
header row, i.e. by the column aliases of the query.  Rows are
modelled as string-keyed association lists with JavaScript
assignment semantics (assigning an existing key overwrites it in
place, a new key is appended). -/

/-- Assignment `obj[k] = v` on a string-valued object. -/
def setKeyS : List (String × String) → String → String → List (String × String)
  | [], k, v => [(k, v)]
  | (k', v') :: rest, k, v =>
    if k' = k then (k', v) :: rest else (k', v') :: setKeyS rest k v

/-- Assignment `obj[k] = v` on an object holding arbitrary values. -/
def setKeyV : List (String × JsVal) → String → JsVal → List (String × JsVal)
  | [], k, v => [(k, v)]
  | (k', v') :: rest, k, v =>
    if k' = k then (k', v) :: rest else (k', v') :: setKeyV rest k v

/-- Spread-merge `{ ...base, ...updates }`: each update key overwrites
in place or is appended. -/
def spreadUpdate (base updates : List (String × JsVal)) : List (String × JsVal) :=
  updates.foldl (fun acc kv => setKeyV acc kv.1 kv.2) base

/-- The row-building reduce of `runAthenaQuery` (index.mjs lines
92-97): `obj[headers[idx]] = val?.VarCharValue || ''`.  An index past
the header list yields the key `undefined` (JavaScript stringifies the
missing header when used as a property key). -/
def rowFromHeaders (headers : List String) (vals : List String) : List (String × String) :=
  vals.enum.foldl (fun obj iv => setKeyS obj (headers.getD iv.1 "undefined") iv.2) []

/-- Column aliases of the match-settings query (index.mjs lines
157-166); these are the keys of every result row. -/
def matchSettingsHeaders : List String :=
  ["replayFormatVersion", "startTimeStamp", "stageId", "timerStart", "frameCount"]

/-- JavaScript `Number(...)` on a string, restricted to the plain
decimal forms (optional sign, digits, optional fraction) that occur in
the stored tables; the empty/whitespace string is 0, anything else
non-decimal is NaN. -/
def parseDigitsAux : List Char → Nat → Option Nat
  | [], acc => some acc
  | c :: cs, acc =>
    if c.isDigit then parseDigitsAux cs (acc * 10 + (c.toNat - 48)) else none

def parseDigits (cs : List Char) : Option Nat :=
  match cs with
  | [] => none
  | _ => parseDigitsAux cs 0

def parseUnsignedDecimal (cs : List Char) : Option ℚ :=
  match cs.splitOn '.' with
  | [w] => (parseDigits w).map (fun n => (n : ℚ))
  | [w, f] =>
    if w = [] && f = [] then none
    else
      let wn := if w = [] then some 0 else parseDigits w
      let fn := if f = [] then some 0 else parseDigits f
      match wn, fn with
      | some a, some bNum => some ((a : ℚ) + (bNum : ℚ) / ((10 : ℚ) ^ f.length))
      | _, _ => none
  | _ => none

def jsNumberOfString (s : String) : JsNum :=
  let t := s.trim
  if t = "" then .num 0
  else
    match t.toList with
    | '-' :: rest => ((parseUnsignedDecimal rest).map (fun q => JsNum.num (-q))).getD .nan
    | '+' :: rest => ((parseUnsignedDecimal rest).map JsNum.num).getD .nan
    | cs => ((parseUnsignedDecimal cs).map JsNum.num).getD .nan

/-- `Number(obj.k)` where the property may be absent:
`Number(undefined)` is NaN. -/
def jsNumberOfOpt : Option String → JsNum
  | none => .nan
  | some s => jsNumberOfString s

/-- `matchSettingsDefaults` from defaults.mjs lines 1-20. -/
def matchSettingsDefaults : List (String × JsVal) :=
  [("isTeams", .vBool false),
   ("isPal", .vBool false),
   ("isFrozenStadium", .vBool false),
   ("platform", .vStr "dolphin"),
   ("consoleNickname", .vStr "slippi"),
   ("timerType", .vStr "counting down"),
   ("characterUiPlacesCount", .vNum (.num 0)),
   ("gameType", .vStr "stock"),
   ("friendlyFireOn", .vBool true),
   ("isBreakTheTargetsOrTitleDemo", .vBool false),
   ("isClassicOrAdventureMode", .vBool false),
   ("isHomeRunContestOrEventMatch", .vBool false),
   ("isSingleButtonMode", .vBool false),
   ("timerCountsDuringPause", .vBool false),
   ("bombRain", .vBool false),
   ("itemSpawnRate", .vStr "off"),
   ("selfDestructScoreValue", .vNum (.num 0)),
   ("damageRatio", .vNum (.num 1))]

/-- The `matchSettings` object literal (index.mjs lines 170-176):
`{ ...matchSettingsResults, frameCount: Number(...), stage: Number(...),
timer: Number(...), ...matchSettingsDefaults }`.  The source reads
`matchSettingsResults.stage` and `.timer`, though the query aliases
those columns to `stageId` and `timerStart`. -/
def assembleMatchSettings (row : List (String × String)) : List (String × JsVal) :=
  let base := row.map (fun kv => (kv.1, JsVal.vStr kv.2))
  let withComputed := spreadUpdate base
    [("frameCount", .vNum (jsNumberOfOpt (row.lookup "frameCount"))),
     ("stage", .vNum (jsNumberOfOpt (row.lookup "stage"))),
     ("timer", .vNum (jsNumberOfOpt (row.lookup "timer")))]
  spreadUpdate withComputed matchSettingsDefaults

/-- Outcome of `const [ matchSettingsResults ] = await runAthenaQuery(...)`
followed by the object literal: with zero rows the destructured value
is `undefined` and `Number(matchSettingsResults.frameCount)` throws a
TypeError. -/
inductive SettingsOutcome where
  | threwTypeError : SettingsOutcome
  | ok : List (String × JsVal) → SettingsOutcome
deriving DecidableEq

def buildMatchSettings (rows : List (List (String × String))) : SettingsOutcome :=
  match rows with
  | [] => .threwTypeError
  | row :: _ => .ok (assembleMatchSettings row)

/-- The handler around the match-settings step: the TypeError thrown
on zero rows reaches the top-level catch (index.mjs lines 456-462) and
becomes a 500 response with the error message; otherwise assembly
continues with the settings object. -/
def matchSettingsPhase (rows : List (List (String × String))) :
    Except (Nat × String) (List (String × JsVal)) :=
  match buildMatchSettings rows with
  | .threwTypeError =>
    .error (500, "Cannot read properties of undefined (reading frameCount)")
  | .ok s => .ok s

/-! ### Concrete sample data for the end-to-end checks -/

/-- A frame-source row with nominal values for the fields the claims do
not constrain. -/
def sampleFrameRow (fn idx : Int) : FrameRow :=
  { frame_number := fn, player_index := idx, follower := "false", buttons := 0,
    phys_l := 0, phys_r := 0, joy_x := 0, joy_y := 0, c_x := 0, c_y := 0,
    char_id := 0, action_post := 0, pos_x_post := 0, pos_y_post := 0,
    face_dir_post := 1, percent_post := 0, shield := 60, hit_with := 0,
    combo := 0, hurt_by := 0, stocks := 4, action_fc := 0, hitstun := 0,
    airborne := "false", ground_id := 0, jumps := 2, l_cancel := 0,
    hurtbox := 0, self_air_x := 0, self_air_y := 0, attack_x := 0,
    attack_y := 0, self_grd_x := 0, hitlag := 0, alive := "true", seed := 7 }

/-- Frame source of the end-to-end scenario: rows for frames 10, 11, 12
for two players, ordered by frame number as the frames query returns
them. -/
def endToEndFrameRows : List FrameRow :=
  [sampleFrameRow 10 0, sampleFrameRow 10 1, sampleFrameRow 11 0,
   sampleFrameRow 11 1, sampleFrameRow 12 0, sampleFrameRow 12 1]

/-- Platform query result of the end-to-end scenario: only the pre-range
boundary event (frame 3, left side, height 20), included by the
boundary branch of the platforms query. -/
def endToEndPlatformRows : List PlatformRow := [⟨3, 1, 20⟩]

def endToEndFrames : List ReplayFrame :=
  assembleFrames endToEndFrameRows [] endToEndPlatformRows

/-- A frame row whose packed button bitmask is 0x1133. -/
def row1133 : FrameRow := { sampleFrameRow 0 0 with buttons := 0x1133 }

/-- A small frame source (two players on frame 1, one on frame 2,
same-frame players out of index order) exercising the ordering
invariants. -/
def orderingWitnessRows : List FrameRow :=
  [sampleFrameRow 1 1, sampleFrameRow 1 0, sampleFrameRow 2 0]

/-! ## Lemmas about the sparse state resolver -/

theorem scanPlatformHeight_sorted (t : Int) :
    ∀ (events : List PlatformRow) (acc : Option ℚ),
      List.Sorted platformFrameLE events →
      scanPlatformHeight events t acc =
        (lastEventLE events t).elim acc (fun e => some e.platform_height)
  | [], acc, _ => by simp [scanPlatformHeight, lastEventLE]
  | e :: rest, acc, hs => by
    rw [List.sorted_cons] at hs
    by_cases h : e.frame > t
    · have hfil : List.filter (fun x => decide (x.frame ≤ t)) (e :: rest) = [] := by
        rw [List.filter_eq_nil_iff]
        intro x hx
        rcases List.mem_cons.mp hx with rfl | hx
        · simpa using by omega
        · have hle : e.frame ≤ x.frame := hs.1 x hx
          simpa using by omega
      simp only [scanPlatformHeight, if_pos h, lastEventLE, hfil, List.getLast?_nil,
        Option.elim_none]
    · push_neg at h
      have hstep : scanPlatformHeight (e :: rest) t acc
          = scanPlatformHeight rest t (some e.platform_height) := by
        simp [scanPlatformHeight, not_lt.mpr h]
      rw [hstep, scanPlatformHeight_sorted t rest _ hs.2]
      unfold lastEventLE
      rw [List.filter_cons_of_pos (by simpa using h)]
      cases hfr : List.filter (fun x => decide (x.frame ≤ t)) rest with
      | nil => simp [lastEventLE, hfr]
      | cons y ys =>
        simp only [lastEventLE, hfr, List.getLast?_cons_cons]
        cases hgl : (y :: ys).getLast? with
        | none => exact absurd hgl (by simp)
        | some z => simp

/-- C1: the sparse state resolver `getPlatformHeightAtFrame` returns, for
every list of platform-change events sorted ascending by frame, the height
of the last event in list order whose frame is at most the target frame
(so with equal frame numbers the last entry wins), and the fallback when
no event qualifies; in particular on the events
(frame 5, height 20), (frame 11, height 15) it yields 20 at target 10,
15 at target 11, and the fallback 99 at target 4. -/
theorem C1_sparse_state_resolver :
    (∀ (events : List PlatformRow) (targetFrame : Int) (fallback : ℚ),
        List.Sorted platformFrameLE events →
        getPlatformHeightAtFrame events targetFrame fallback =
          (lastEventLE events targetFrame).elim fallback PlatformRow.platform_height) ∧
    getPlatformHeightAtFrame [⟨5, 1, 20⟩, ⟨11, 1, 15⟩] 10 0 = 20 ∧
    getPlatformHeightAtFrame [⟨5, 1, 20⟩, ⟨11, 1, 15⟩] 11 0 = 15 ∧
    getPlatformHeightAtFrame [⟨5, 1, 20⟩, ⟨11, 1, 15⟩] 4 99 = 99 := by
  refine ⟨?_, by decide, by decide, by decide⟩
  intro events t d hs
  unfold getPlatformHeightAtFrame
  rw [scanPlatformHeight_sorted t events none hs]
  cases lastEventLE events t <;> simp

/-- Witness for C1 at the concrete sorted event list of the claim. -/
theorem C1_sparse_state_resolver_witness :
    List.Sorted platformFrameLE [⟨5, 1, 20⟩, ⟨11, 1, 15⟩] ∧
    getPlatformHeightAtFrame [⟨5, 1, 20⟩, ⟨11, 1, 15⟩] 10 0 =
      (lastEventLE [⟨5, 1, 20⟩, ⟨11, 1, 15⟩] 10).elim 0 PlatformRow.platform_height :=
  ⟨by decide, C1_sparse_state_resolver.1 _ 10 0 (by decide)⟩

/-- C2: in the end-to-end scenario (frameStart 10, frameEnd 12, player
rows for frames 10, 11 and 12, and the single pre-range left-side
boundary event at frame 3 with height 20), all three output frames
carry `fodLeftPlatformHeight = 20` (carried forward from the boundary
event) and `fodRightPlatformHeight` equal to the right-side fallback
constant, and the two side-specific fallback constants are distinct. -/
theorem C2_boundary_carry_forward :
    endToEndFrames.map ReplayFrame.frameNumber = [10, 11, 12] ∧
    endToEndFrames.map (fun f => f.stage.fodLeftPlatformHeight) = [20, 20, 20] ∧
    endToEndFrames.map (fun f => f.stage.fodRightPlatformHeight) =
      [fodRightDefaultHeight, fodRightDefaultHeight, fodRightDefaultHeight] ∧
    fodLeftDefaultHeight ≠ fodRightDefaultHeight := by
  refine ⟨rfl, rfl, rfl, ?_⟩
  norm_num [fodLeftDefaultHeight, fodRightDefaultHeight]

/-! ## The bitmask decoder -/

theorem buttonBit_pow (bits k : Nat) : buttonBit bits (2 ^ k) = bits.testBit k := by
  unfold buttonBit
  rw [Nat.and_two_pow]
  cases h : bits.testBit k <;> simp [h, Nat.pos_iff_ne_zero, Nat.two_pow_pos]

theorem buttonBit_0x0001 (bits : Nat) : buttonBit bits 0x0001 = bits.testBit 0 := by
  rw [show (0x0001 : Nat) = 2 ^ 0 by norm_num, buttonBit_pow]

theorem buttonBit_0x0002 (bits : Nat) : buttonBit bits 0x0002 = bits.testBit 1 := by
  rw [show (0x0002 : Nat) = 2 ^ 1 by norm_num, buttonBit_pow]

theorem buttonBit_0x0004 (bits : Nat) : buttonBit bits 0x0004 = bits.testBit 2 := by
  rw [show (0x0004 : Nat) = 2 ^ 2 by norm_num, buttonBit_pow]

theorem buttonBit_0x0008 (bits : Nat) : buttonBit bits 0x0008 = bits.testBit 3 := by
  rw [show (0x0008 : Nat) = 2 ^ 3 by norm_num, buttonBit_pow]

theorem buttonBit_0x0010 (bits : Nat) : buttonBit bits 0x0010 = bits.testBit 4 := by
  rw [show (0x0010 : Nat) = 2 ^ 4 by norm_num, buttonBit_pow]

theorem buttonBit_0x0020 (bits : Nat) : buttonBit bits 0x0020 = bits.testBit 5 := by
  rw [show (0x0020 : Nat) = 2 ^ 5 by norm_num, buttonBit_pow]

theorem buttonBit_0x0040 (bits : Nat) : buttonBit bits 0x0040 = bits.testBit 6 := by
  rw [show (0x0040 : Nat) = 2 ^ 6 by norm_num, buttonBit_pow]

theorem buttonBit_0x0100 (bits : Nat) : buttonBit bits 0x0100 = bits.testBit 8 := by
  rw [show (0x0100 : Nat) = 2 ^ 8 by norm_num, buttonBit_pow]

theorem buttonBit_0x0200 (bits : Nat) : buttonBit bits 0x0200 = bits.testBit 9 := by
  rw [show (0x0200 : Nat) = 2 ^ 9 by norm_num, buttonBit_pow]

theorem buttonBit_0x0400 (bits : Nat) : buttonBit bits 0x0400 = bits.testBit 10 := by
  rw [show (0x0400 : Nat) = 2 ^ 10 by norm_num, buttonBit_pow]

theorem buttonBit_0x0800 (bits : Nat) : buttonBit bits 0x0800 = bits.testBit 11 := by
  rw [show (0x0800 : Nat) = 2 ^ 11 by norm_num, buttonBit_pow]

theorem buttonBit_0x1000 (bits : Nat) : buttonBit bits 0x1000 = bits.testBit 12 := by
  rw [show (0x1000 : Nat) = 2 ^ 12 by norm_num, buttonBit_pow]

/-- C8 counterexample: decoding the bitmask 0x1133 does not yield the
output the claim lists — bit 0x0200 (`b`) is unset and bit 0x1000
(`start`) is set in 0x1133, and bits 0x0002 (`dPadRight`) and 0x0020
(`rTriggerDigital`), unlisted by the claim, are set as well. -/
theorem C8_decode_0x1133_counterexample :
    (buildPlayer row1133).inputs.physical.b = false ∧
    (buildPlayer row1133).inputs.physical.start = true ∧
    (buildPlayer row1133).inputs.physical.dPadRight = true ∧
    (buildPlayer row1133).inputs.physical.rTriggerDigital = true := by
  decide

/-- C8 as amended: for every packed button bitmask, each named boolean
attribute of the physical and processed views equals the corresponding
bit of the mask under the fixed table (0x0001 dPadLeft, 0x0002
dPadRight, 0x0004 dPadDown, 0x0008 dPadUp, 0x0010 z, 0x0020
rTriggerDigital, 0x0040 lTriggerDigital, 0x0100 a, 0x0200 b, 0x0400 x,
0x0800 y, 0x1000 start), unset bits yield false, and the processed
view's anyTrigger is the maximum of the analog trigger values; the
concrete decode of 0x1133 (bits 0, 1, 4, 5, 8 and 12 set) yields
dPadLeft, dPadRight, z, rTriggerDigital, a and start true and all
other named attributes false. -/
theorem C8_bitmask_decoding_amended :
    (∀ row : FrameRow,
      (buildPlayer row).inputs.physical =
        { dPadLeft := row.buttons.testBit 0
          dPadRight := row.buttons.testBit 1
          dPadDown := row.buttons.testBit 2
          dPadUp := row.buttons.testBit 3
          z := row.buttons.testBit 4
          rTriggerAnalog := row.phys_r
          rTriggerDigital := row.buttons.testBit 5
          lTriggerAnalog := row.phys_l
          lTriggerDigital := row.buttons.testBit 6
          a := row.buttons.testBit 8
          b := row.buttons.testBit 9
          x := row.buttons.testBit 10
          y := row.buttons.testBit 11
          start := row.buttons.testBit 12 } ∧
      (buildPlayer row).inputs.processed =
        { dPadLeft := row.buttons.testBit 0
          dPadRight := row.buttons.testBit 1
          dPadDown := row.buttons.testBit 2
          dPadUp := row.buttons.testBit 3
          z := row.buttons.testBit 4
          rTriggerDigital := row.buttons.testBit 5
          lTriggerDigital := row.buttons.testBit 6
          a := row.buttons.testBit 8
          b := row.buttons.testBit 9
          x := row.buttons.testBit 10
          y := row.buttons.testBit 11
          start := row.buttons.testBit 12
          joystickX := row.joy_x
          joystickY := row.joy_y
          cStickX := row.c_x
          cStickY := row.c_y
          anyTrigger := max row.phys_l row.phys_r }) ∧
    (buildPlayer row1133).inputs.physical =
      { dPadLeft := true, dPadRight := true, dPadDown := false,
        dPadUp := false, z := true, rTriggerAnalog := 0,
        rTriggerDigital := true, lTriggerAnalog := 0,
        lTriggerDigital := false, a := true, b := false, x := false,
        y := false, start := true } := by
  refine ⟨fun row => ⟨?_, ?_⟩, by decide⟩
  · simp [buildPlayer, buttonBit_0x0001, buttonBit_0x0002, buttonBit_0x0004,
      buttonBit_0x0008, buttonBit_0x0010, buttonBit_0x0020, buttonBit_0x0040,
      buttonBit_0x0100, buttonBit_0x0200, buttonBit_0x0400, buttonBit_0x0800,
      buttonBit_0x1000]
  · simp [buildPlayer, buttonBit_0x0001, buttonBit_0x0002, buttonBit_0x0004,
      buttonBit_0x0008, buttonBit_0x0010, buttonBit_0x0020, buttonBit_0x0040,
      buttonBit_0x0100, buttonBit_0x0200, buttonBit_0x0400, buttonBit_0x0800,
      buttonBit_0x1000]

/-! ## Request validation -/

/-- C3: the code contradicts the claim — the request (matchId M1,
frameStart 0, frameEnd 5) satisfies the claimed precondition (non-empty
matchId, integer frameStart at least 0, frameEnd at least frameStart),
yet the truthiness check `!matchId || !frameStart || !frameEnd` rejects
it, reporting frameStart as a missing field although it is present. -/
theorem C3_validation_rejects_frame_start_zero :
    "M1" ≠ "" ∧ (0 : Int) ≥ 0 ∧ (5 : Int) ≥ (0 : Int) ∧
    validateRequest "M1" 0 5 = ValidationOutcome.rejected := by
  refine ⟨by decide, by decide, by decide, rfl⟩

/-! ## The status-poll loop -/

/-- C4 counterexample: a terminal CANCELLED status does not produce a
terminal error — the poll loop exits normally and the query results are
fetched, so SUCCEEDED is not the only path to fetching results. -/
theorem C4_cancelled_reaches_fetch_results :
    runAthenaQueryPoll [{ state := some .CANCELLED, reason := some "cancelled by user" }] =
      PollOutcome.fetchResults QueryState.CANCELLED ∧
    QueryState.CANCELLED ≠ QueryState.SUCCEEDED := by
  refine ⟨rfl, by decide⟩

theorem pollLoop_fetch_terminal :
    ∀ (polls : List PollResponse) (s₀ : QueryState), s₀ ≠ QueryState.FAILED →
      ∀ s, pollLoop s₀ polls = PollOutcome.fetchResults s →
        s = QueryState.SUCCEEDED ∨ s = QueryState.CANCELLED
  | [], s₀, h₀, s, hp => by
    unfold pollLoop at hp
    by_cases hq : s₀ = QueryState.QUEUED ∨ s₀ = QueryState.RUNNING
    · simp [hq] at hp
    · simp [hq] at hp
      cases s₀ <;> simp_all
  | p :: rest, s₀, h₀, s, hp => by
    unfold pollLoop at hp
    by_cases hq : s₀ = QueryState.QUEUED ∨ s₀ = QueryState.RUNNING
    · simp only [if_pos hq] at hp
      by_cases hf : effectiveState p = QueryState.FAILED
      · simp [hf] at hp
      · simp only [if_neg hf] at hp
        exact pollLoop_fetch_terminal rest (effectiveState p) hf s hp
    · simp only [if_neg hq] at hp
      cases s₀ <;> simp_all

theorem pollLoop_failed_throws :
    ∀ (pre : List PollResponse) (s₀ : QueryState),
      (s₀ = QueryState.QUEUED ∨ s₀ = QueryState.RUNNING) →
      ∀ (p : PollResponse) (rest : List PollResponse),
        (∀ q ∈ pre, effectiveState q = QueryState.QUEUED ∨ effectiveState q = QueryState.RUNNING) →
        effectiveState p = QueryState.FAILED →
        pollLoop s₀ (pre ++ p :: rest) = PollOutcome.threw (queryFailedMessage p.reason)
  | [], s₀, h₀, p, rest, _, hf => by
    unfold pollLoop
    simp [h₀, hf]
  | q :: pre, s₀, h₀, p, rest, hpre, hf => by
    have hq := hpre q (List.mem_cons_self q pre)
    have hqne : effectiveState q ≠ QueryState.FAILED := by
      rcases hq with h | h <;> simp [h]
    unfold pollLoop
    simp only [List.cons_append, if_pos h₀, if_neg hqne]
    exact pollLoop_failed_throws pre (effectiveState q) hq p rest
      (fun x hx => hpre x (List.mem_cons_of_mem _ hx)) hf

/-- C4 as amended: a FAILED poll status (reached after any run of
QUEUED/RUNNING polls) produces a terminal error carrying the
engine-supplied failure reason, while the query results are fetched
whenever the loop exits at any non-FAILED terminal status — both
SUCCEEDED and CANCELLED lead to fetching results, so SUCCEEDED is not
the only path there and CANCELLED produces no error. -/
theorem C4_terminal_states_amended (polls : List PollResponse) :
    (∀ s, runAthenaQueryPoll polls = PollOutcome.fetchResults s →
        s = QueryState.SUCCEEDED ∨ s = QueryState.CANCELLED) ∧
    (∀ (pre : List PollResponse) (p : PollResponse) (rest : List PollResponse),
        polls = pre ++ p :: rest →
        (∀ q ∈ pre, effectiveState q = QueryState.QUEUED ∨ effectiveState q = QueryState.RUNNING) →
        effectiveState p = QueryState.FAILED →
        runAthenaQueryPoll polls = PollOutcome.threw (queryFailedMessage p.reason)) := by
  constructor
  · intro s hp
    exact pollLoop_fetch_terminal polls QueryState.QUEUED (by decide) s hp
  · intro pre p rest heq hpre hf
    rw [heq]
    exact pollLoop_failed_throws pre QueryState.QUEUED (Or.inl rfl) p rest hpre hf

/-- Witness for C4 as amended: a SUCCEEDED poll reaches the fetch and a
RUNNING poll followed by a FAILED poll throws with the engine reason. -/
theorem C4_terminal_states_amended_witness :
    (QueryState.SUCCEEDED = QueryState.SUCCEEDED ∨
      QueryState.SUCCEEDED = QueryState.CANCELLED) ∧
    runAthenaQueryPoll
        [{ state := some .RUNNING, reason := none },
         { state := some .FAILED, reason := some "table not found" }] =
      PollOutcome.threw (queryFailedMessage (some "table not found")) :=
  ⟨(C4_terminal_states_amended [{ state := some .SUCCEEDED, reason := none }]).1
      QueryState.SUCCEEDED (by decide),
   (C4_terminal_states_amended
        [{ state := some .RUNNING, reason := none },
         { state := some .FAILED, reason := some "table not found" }]).2
      [{ state := some .RUNNING, reason := none }]
      { state := some .FAILED, reason := some "table not found" } [] rfl
      (by decide) (by decide)⟩

/-! ## Missing match settings -/

/-- C9: a matchId whose match-settings query yields zero rows makes the
handler report a data-not-found failure to the caller — the undefined
destructured result row throws while the settings object is built, and
the top-level catch turns that into a 500 error response — rather than
returning a silently-empty settings object. -/
theorem C9_missing_match_settings :
    buildMatchSettings [] = SettingsOutcome.threwTypeError ∧
    matchSettingsPhase [] =
      Except.error (500, "Cannot read properties of undefined (reading frameCount)") :=
  ⟨rfl, rfl⟩

/-! ## Stage and timer in the assembled match settings -/

theorem lookup_setKeyS (k v key : String) :
    ∀ m : List (String × String),
      (setKeyS m k v).lookup key = if key = k then some v else m.lookup key := by
  intro m
  induction m with
  | nil =>
    by_cases h : key = k
    · subst h
      simp [setKeyS]
    · have hb : (key == k) = false := beq_eq_false_iff_ne.mpr h
      simp [setKeyS, List.lookup_cons, hb, h]
  | cons kv rest ih =>
    obtain ⟨k', v'⟩ := kv
    by_cases h : k' = k
    · subst h
      by_cases h2 : key = k'
      · subst h2
        simp [setKeyS]
      · have hb : (key == k') = false := beq_eq_false_iff_ne.mpr h2
        simp [setKeyS, List.lookup_cons, hb, h2]
    · by_cases h2 : key = k'
      · subst h2
        have hkk : ¬ key = k := fun he => h (he ▸ rfl)
        simp [setKeyS, h, List.lookup_cons, hkk]
      · have hb : (key == k') = false := beq_eq_false_iff_ne.mpr h2
        simp [setKeyS, h, List.lookup_cons, hb, ih]

theorem lookup_setKeyV (k : String) (v : JsVal) (key : String) :
    ∀ m : List (String × JsVal),
      (setKeyV m k v).lookup key = if key = k then some v else m.lookup key := by
  intro m
  induction m with
  | nil =>
    by_cases h : key = k
    · subst h
      simp [setKeyV]
    · have hb : (key == k) = false := beq_eq_false_iff_ne.mpr h
      simp [setKeyV, List.lookup_cons, hb, h]
  | cons kv rest ih =>
    obtain ⟨k', v'⟩ := kv
    by_cases h : k' = k
    · subst h
      by_cases h2 : key = k'
      · subst h2
        simp [setKeyV]
      · have hb : (key == k') = false := beq_eq_false_iff_ne.mpr h2
        simp [setKeyV, List.lookup_cons, hb, h2]
    · by_cases h2 : key = k'
      · subst h2
        have hkk : ¬ key = k := fun he => h (he ▸ rfl)
        simp [setKeyV, h, List.lookup_cons, hkk]
      · have hb : (key == k') = false := beq_eq_false_iff_ne.mpr h2
        simp [setKeyV, h, List.lookup_cons, hb, ih]

theorem lookup_spreadUpdate_not_mem (key : String) :
    ∀ (updates base : List (String × JsVal)),
      (∀ kv ∈ updates, kv.1 ≠ key) →
      (spreadUpdate base updates).lookup key = base.lookup key
  | [], _, _ => rfl
  | kv :: updates, base, h => by
    have hrec := lookup_spreadUpdate_not_mem key updates (setKeyV base kv.1 kv.2)
      (fun x hx => h x (List.mem_cons_of_mem _ hx))
    unfold spreadUpdate at hrec ⊢
    rw [List.foldl_cons, hrec, lookup_setKeyV, if_neg]
    exact fun he => (h kv (List.mem_cons_self kv updates)) he.symm

theorem lookup_foldl_setKeyS_none (headers : List String) (key : String)
    (hkey : ∀ i, headers.getD i "undefined" ≠ key) :
    ∀ (l : List (Nat × String)) (obj : List (String × String)),
      obj.lookup key = none →
      (l.foldl (fun o iv => setKeyS o (headers.getD iv.1 "undefined") iv.2) obj).lookup key
        = none
  | [], _, h => h
  | iv :: l, obj, h => by
    rw [List.foldl_cons]
    apply lookup_foldl_setKeyS_none headers key hkey l
    rw [lookup_setKeyS, if_neg (fun he => hkey iv.1 he.symm)]
    exact h

theorem matchSettingsHeaders_getD_ne (i : Nat) (key : String)
    (h : key ∉ ("undefined" :: matchSettingsHeaders)) :
    matchSettingsHeaders.getD i "undefined" ≠ key := by
  intro he
  apply h
  rw [← he]
  match i with
  | 0 | 1 | 2 | 3 | 4 => decide
  | n + 5 =>
    rw [List.getD_eq_default]
    · decide
    · simp [matchSettingsHeaders]

theorem rowFromHeaders_lookup_none (vals : List String) (key : String)
    (h : key ∉ ("undefined" :: matchSettingsHeaders)) :
    (rowFromHeaders matchSettingsHeaders vals).lookup key = none := by
  unfold rowFromHeaders
  exact lookup_foldl_setKeyS_none matchSettingsHeaders key
    (fun i => matchSettingsHeaders_getD_ne i key h) vals.enum [] rfl

/-- C10: every successfully assembled match-settings object maps the
keys stage and timer to NaN (Number of an undefined property, which
JSON-serializes as null), because the query aliases the source columns
to stageId and timerStart while the assembler reads the properties
stage and timer, and the spread of matchSettingsDefaults supplies
neither key. -/
theorem C10_stage_timer_nan (vals : List String) :
    (assembleMatchSettings (rowFromHeaders matchSettingsHeaders vals)).lookup "stage" =
      some (JsVal.vNum JsNum.nan) ∧
    (assembleMatchSettings (rowFromHeaders matchSettingsHeaders vals)).lookup "timer" =
      some (JsVal.vNum JsNum.nan) := by
  have hs : (rowFromHeaders matchSettingsHeaders vals).lookup "stage" = none :=
    rowFromHeaders_lookup_none vals "stage" (by decide)
  have ht : (rowFromHeaders matchSettingsHeaders vals).lookup "timer" = none :=
    rowFromHeaders_lookup_none vals "timer" (by decide)
  unfold assembleMatchSettings
  constructor
  · rw [lookup_spreadUpdate_not_mem "stage" matchSettingsDefaults _ (by decide)]
    show (spreadUpdate _ _).lookup "stage" = _
    unfold spreadUpdate
    simp only [List.foldl_cons, List.foldl_nil]
    rw [lookup_setKeyV, if_neg (by decide), lookup_setKeyV, if_pos rfl, hs]
    rfl
  · rw [lookup_spreadUpdate_not_mem "timer" matchSettingsDefaults _ (by decide)]
    show (spreadUpdate _ _).lookup "timer" = _
    unfold spreadUpdate
    simp only [List.foldl_cons, List.foldl_nil]
    rw [lookup_setKeyV, if_pos rfl, ht]
    rfl

/-! ## The replay cache -/

/-- C5: two identical valid requests (same matchId, frameStart,
frameEnd) issued sequentially against an initially empty cache invoke
the query-execution path exactly once — only the first request
computes, the second is served from the cache — and the second
response body is byte-identical to the first, for any serializer pair
on which parse inverts stringify (as JSON.parse does on JSON.stringify
output). -/
theorem C5_cache_idempotence {V : Type} (M : CacheModel V)
    (hRT : ∀ v, M.parse (M.stringify v) = v) (compute : V)
    (matchId : String) (frameStart frameEnd : Int) :
    (handlerOnce M compute [] (getReplayCacheKey matchId frameStart frameEnd)).1.queryInvoked
        = true ∧
    (handlerOnce M compute
        (handlerOnce M compute [] (getReplayCacheKey matchId frameStart frameEnd)).2
        (getReplayCacheKey matchId frameStart frameEnd)).1.queryInvoked = false ∧
    (handlerOnce M compute
        (handlerOnce M compute [] (getReplayCacheKey matchId frameStart frameEnd)).2
        (getReplayCacheKey matchId frameStart frameEnd)).1.body =
      (handlerOnce M compute [] (getReplayCacheKey matchId frameStart frameEnd)).1.body := by
  have h1 : handlerOnce M compute [] (getReplayCacheKey matchId frameStart frameEnd) =
      ({ statusCode := 200, body := some (M.stringify compute), errorMessage := none,
         queryInvoked := true, logs := [] },
       [(getReplayCacheKey matchId frameStart frameEnd, M.stringify compute)]) := by
    simp [handlerOnce, handlerCacheFlow, s3Get, tryGetCachedReplay]
  rw [h1]
  refine ⟨rfl, ?_, ?_⟩ <;>
    simp [handlerOnce, handlerCacheFlow, s3Get, tryGetCachedReplay, hRT]

/-- Witness for C5: the trivial Unit serializer satisfies the
round-trip hypothesis, and the two sequential requests behave as the
theorem states. -/
theorem C5_cache_idempotence_witness :
    (∀ v, unitCacheModel.parse (unitCacheModel.stringify v) = v) ∧
    ((handlerOnce unitCacheModel () [] (getReplayCacheKey "M1" 10 12)).1.queryInvoked = true ∧
     (handlerOnce unitCacheModel ()
        (handlerOnce unitCacheModel () [] (getReplayCacheKey "M1" 10 12)).2
        (getReplayCacheKey "M1" 10 12)).1.queryInvoked = false ∧
     (handlerOnce unitCacheModel ()
        (handlerOnce unitCacheModel () [] (getReplayCacheKey "M1" 10 12)).2
        (getReplayCacheKey "M1" 10 12)).1.body =
       (handlerOnce unitCacheModel () [] (getReplayCacheKey "M1" 10 12)).1.body) :=
  ⟨fun _ => rfl,
   C5_cache_idempotence unitCacheModel (fun _ => rfl) () "M1" 10 12⟩

/-- C6: cache error asymmetry — a cache read error other than the
not-found condition (`NoSuchKey`) is swallowed, logged, and treated as
a miss: computation proceeds, and when the subsequent write succeeds
the request still succeeds with the read error never propagated;
whereas a cache write failure after a successful computation is
propagated as an overall 500 internal failure carrying the error
message.  Reads fail open, writes fail closed. -/
theorem C6_cache_error_asymmetry {V : Type} (M : CacheModel V) (compute : V)
    (errName : String) (hname : errName ≠ "NoSuchKey") (putMsg : String) :
    ((handlerCacheFlow M (.failed errName) .ok compute).statusCode = 200 ∧
     (handlerCacheFlow M (.failed errName) .ok compute).queryInvoked = true ∧
     (handlerCacheFlow M (.failed errName) .ok compute).errorMessage = none ∧
     (handlerCacheFlow M (.failed errName) .ok compute).logs ≠ []) ∧
    ((handlerCacheFlow M (.failed "NoSuchKey") (.failed putMsg) compute).statusCode = 500 ∧
     (handlerCacheFlow M (.failed "NoSuchKey") (.failed putMsg) compute).queryInvoked = true ∧
     (handlerCacheFlow M (.failed "NoSuchKey") (.failed putMsg) compute).errorMessage =
       some (if putMsg == "" then "Internal error" else putMsg)) ∧
    (handlerCacheFlow M (.failed errName) (.failed putMsg) compute).statusCode = 500 := by
  have hb : (errName == "NoSuchKey") = false := beq_eq_false_iff_ne.mpr hname
  refine ⟨?_, ?_, ?_⟩
  · simp [handlerCacheFlow, tryGetCachedReplay, hb]
  · simp [handlerCacheFlow, tryGetCachedReplay]
  · simp [handlerCacheFlow, tryGetCachedReplay, hb]

/-- Witness for C6 at a concrete non-not-found read error and a
concrete write failure. -/
theorem C6_cache_error_asymmetry_witness :
    ("AccessDenied" : String) ≠ "NoSuchKey" ∧
    ((handlerCacheFlow unitCacheModel (.failed "AccessDenied") .ok ()).statusCode = 200 ∧
     (handlerCacheFlow unitCacheModel (.failed "AccessDenied") .ok ()).queryInvoked = true ∧
     (handlerCacheFlow unitCacheModel (.failed "AccessDenied") .ok ()).errorMessage = none ∧
     (handlerCacheFlow unitCacheModel (.failed "AccessDenied") .ok ()).logs ≠ []) ∧
    ((handlerCacheFlow unitCacheModel (.failed "NoSuchKey")
        (.failed "network down") ()).statusCode = 500 ∧
     (handlerCacheFlow unitCacheModel (.failed "NoSuchKey")
        (.failed "network down") ()).queryInvoked = true ∧
     (handlerCacheFlow unitCacheModel (.failed "NoSuchKey")
        (.failed "network down") ()).errorMessage =
       some (if ("network down" : String) == "" then "Internal error" else "network down")) ∧
    (handlerCacheFlow unitCacheModel (.failed "AccessDenied")
        (.failed "network down") ()).statusCode = 500 := by
  have h := C6_cache_error_asymmetry unitCacheModel () "AccessDenied" (by decide) "network down"
  exact ⟨by decide, h.1, h.2.1, h.2.2⟩

/-! ## Output ordering invariants

The frame grouping is characterized as the list of first occurrences
of the frame numbers, each paired with the filter of its rows. -/

theorem groupFrames_concat (rows : List FrameRow) (r : FrameRow) :
    groupFrames (rows ++ [r]) = insertGrouped (groupFrames rows) r.frame_number r := by
  unfold groupFrames
  rw [List.foldl_append]
  rfl

theorem firstOccurs_concat (l : List Int) (k : Int) :
    firstOccurs (l ++ [k]) =
      if k ∈ firstOccurs l then firstOccurs l else firstOccurs l ++ [k] := by
  unfold firstOccurs
  rw [List.foldl_append]
  rfl

theorem mem_firstOccurs (l : List Int) (k : Int) : k ∈ firstOccurs l ↔ k ∈ l := by
  induction l using List.reverseRecOn with
  | nil => simp [firstOccurs]
  | append_singleton l x ih =>
    rw [firstOccurs_concat]
    by_cases h : x ∈ firstOccurs l
    · rw [if_pos h, List.mem_append, List.mem_singleton]
      constructor
      · intro hk
        exact Or.inl (ih.mp hk)
      · rintro (hk | rfl)
        · exact ih.mpr hk
        · exact h
    · rw [if_neg h]
      simp [List.mem_append, ih]

theorem nodup_firstOccurs (l : List Int) : (firstOccurs l).Nodup := by
  induction l using List.reverseRecOn with
  | nil => simp [firstOccurs]
  | append_singleton l x ih =>
    rw [firstOccurs_concat]
    by_cases h : x ∈ firstOccurs l
    · rwa [if_pos h]
    · rw [if_neg h]
      rw [List.nodup_append]
      exact ⟨ih, List.nodup_singleton x,
        fun y hy hy' => h ((List.mem_singleton.mp hy') ▸ hy)⟩

theorem sorted_firstOccurs (l : List Int) (hs : List.Sorted (· ≤ ·) l) :
    List.Sorted (· < ·) (firstOccurs l) := by
  induction l using List.reverseRecOn with
  | nil => simp [firstOccurs]
  | append_singleton l x ih =>
    have hsl : List.Sorted (· ≤ ·) l :=
      hs.sublist (List.sublist_append_left l [x])
    have hyx : ∀ y ∈ l, y ≤ x := by
      intro y hy
      exact (List.pairwise_append.mp hs).2.2 y hy x (List.mem_singleton_self x)
    rw [firstOccurs_concat]
    by_cases h : x ∈ firstOccurs l
    · rw [if_pos h]
      exact ih hsl
    · rw [if_neg h]
      rw [List.Sorted, List.pairwise_append]
      refine ⟨ih hsl, List.pairwise_singleton _ _, ?_⟩
      intro a ha b hb
      rw [List.mem_singleton] at hb
      subst hb
      have hax : a ≤ b := hyx a ((mem_firstOccurs l a).mp ha)
      have hne : a ≠ b := fun he => h (he ▸ ha)
      omega

theorem insertGrouped_map_of_mem (g : Int → List FrameRow) (r : FrameRow) :
    ∀ ks : List Int, r.frame_number ∈ ks → ks.Nodup →
      insertGrouped (ks.map (fun k => (k, g k))) r.frame_number r =
        ks.map (fun k => (k, if k = r.frame_number then g k ++ [r] else g k))
  | [], hmem, _ => absurd hmem (List.not_mem_nil _)
  | k :: ks, hmem, hnd => by
    by_cases hk : k = r.frame_number
    · have hnot : k ∉ ks := (List.nodup_cons.mp hnd).1
      simp only [List.map_cons, insertGrouped, hk, ite_true]
      congr 1
      apply List.map_congr_left
      intro kk hkk
      have hne : kk ≠ r.frame_number := fun he => hnot (hk ▸ he ▸ hkk)
      simp [hne]
    · have hmem' : r.frame_number ∈ ks := by
        rcases List.mem_cons.mp hmem with he | hm
        · exact absurd he.symm hk
        · exact hm
      simp only [List.map_cons, insertGrouped, if_neg hk]
      rw [insertGrouped_map_of_mem g r ks hmem' (List.nodup_cons.mp hnd).2]

theorem insertGrouped_map_of_not_mem (g : Int → List FrameRow) (r : FrameRow) :
    ∀ ks : List Int, r.frame_number ∉ ks →
      insertGrouped (ks.map (fun k => (k, g k))) r.frame_number r =
        ks.map (fun k => (k, g k)) ++ [(r.frame_number, [r])]
  | [], _ => rfl
  | k :: ks, hmem => by
    have hk : k ≠ r.frame_number := fun he => hmem (he ▸ List.mem_cons_self k ks)
    have hmem' : r.frame_number ∉ ks := fun hm => hmem (List.mem_cons_of_mem k hm)
    simp only [List.map_cons, insertGrouped, if_neg hk, List.cons_append]
    rw [insertGrouped_map_of_not_mem g r ks hmem']

theorem groupFrames_eq (rows : List FrameRow) :
    groupFrames rows =
      (firstOccurs (rows.map FrameRow.frame_number)).map
        (fun k => (k, rows.filter (fun x => decide (x.frame_number = k)))) := by
  induction rows using List.reverseRecOn with
  | nil => rfl
  | append_singleton rows r ih =>
    rw [groupFrames_concat, ih, List.map_append, List.map_singleton, firstOccurs_concat]
    by_cases h : r.frame_number ∈ firstOccurs (rows.map FrameRow.frame_number)
    · rw [if_pos h,
        insertGrouped_map_of_mem _ r _ h (nodup_firstOccurs _)]
      apply List.map_congr_left
      intro k hk
      by_cases hke : k = r.frame_number
      · subst hke
        simp [List.filter_append]
      · have : ¬ (r.frame_number = k) := fun he => hke he.symm
        simp [List.filter_append, this, hke]
    · rw [if_neg h,
        insertGrouped_map_of_not_mem _ r _ h, List.map_append, List.map_singleton]
      have hfil : rows.filter (fun x => decide (x.frame_number = r.frame_number)) = [] := by
        rw [List.filter_eq_nil_iff]
        intro x hx
        have : x.frame_number ∈ rows.map FrameRow.frame_number :=
          List.mem_map_of_mem FrameRow.frame_number hx
        simp only [decide_eq_true_eq]
        intro he
        exact h ((mem_firstOccurs _ _).mpr (he ▸ this))
      congr 1
      · apply List.map_congr_left
        intro k hk
        have hke : ¬ (r.frame_number = k) := fun he => h (he ▸ hk)
        simp [List.filter_append, hke]
      · simp [List.filter_append, hfil]

theorem assembleFrames_map_frameNumber (rows : List FrameRow) (it : List ItemRow)
    (pf : List PlatformRow) :
    (assembleFrames rows it pf).map ReplayFrame.frameNumber =
      firstOccurs (rows.map FrameRow.frame_number) := by
  unfold assembleFrames
  rw [groupFrames_eq]
  simp only [List.map_map]
  exact (List.map_congr_left fun k _ => rfl).trans (List.map_id _)

theorem mem_assembleFrames (rows : List FrameRow) (it : List ItemRow)
    (pf : List PlatformRow) (f : ReplayFrame) (hf : f ∈ assembleFrames rows it pf) :
    ∃ k, k ∈ firstOccurs (rows.map FrameRow.frame_number) ∧
      f = buildFrame it pf k (rows.filter (fun x => decide (x.frame_number = k))) := by
  unfold assembleFrames at hf
  rw [groupFrames_eq, List.map_map] at hf
  rcases List.mem_map.mp hf with ⟨k, hk, he⟩
  exact ⟨k, hk, he.symm⟩

theorem buildFrame_players_sorted (rows : List FrameRow) (it : List ItemRow)
    (pf : List PlatformRow) (k : Int)
    (hnodup : rows.Pairwise
      (fun a b => a.frame_number = b.frame_number → a.player_index ≠ b.player_index)) :
    List.Sorted (· < ·)
      ((buildFrame it pf k (rows.filter (fun x => decide (x.frame_number = k)))).players.map
        PlayerEntry.playerIndex) := by
  set g := rows.filter (fun x => decide (x.frame_number = k)) with hg
  have hsub : List.Sublist g rows := List.filter_sublist rows
  have hframe : ∀ x ∈ g, x.frame_number = k := by
    intro x hx
    have := (List.mem_filter.mp hx).2
    simpa using this
  have hpw : g.Pairwise (fun a b => a.player_index ≠ b.player_index) :=
    (hnodup.sublist hsub).imp_of_mem
      (fun {a b} ha hb hab => hab (by rw [hframe a ha, hframe b hb]))
  have hperm : List.Perm (List.insertionSort playerLE (g.map buildPlayer))
      (g.map buildPlayer) :=
    List.perm_insertionSort playerLE _
  have hle : List.Sorted (· ≤ ·)
      ((List.insertionSort playerLE (g.map buildPlayer)).map PlayerEntry.playerIndex) := by
    rw [List.Sorted, List.pairwise_map]
    exact List.sorted_insertionSort playerLE _
  have hne : ((List.insertionSort playerLE (g.map buildPlayer)).map
      PlayerEntry.playerIndex).Pairwise (· ≠ ·) := by
    have h1 : (g.map buildPlayer).map PlayerEntry.playerIndex
        = g.map FrameRow.player_index := by
      rw [List.map_map]
      rfl
    have h2 : (g.map FrameRow.player_index).Pairwise (· ≠ ·) := by
      rw [List.pairwise_map]
      exact hpw
    have hpm : List.Perm ((List.insertionSort playerLE (g.map buildPlayer)).map
        PlayerEntry.playerIndex) (g.map FrameRow.player_index) := by
      rw [← h1]
      exact hperm.map _
    exact (hpm.pairwise_iff (fun h => Ne.symm h)).mpr h2
  show List.Sorted (· < ·)
    ((List.insertionSort playerLE (g.map buildPlayer)).map PlayerEntry.playerIndex)
  rw [List.Sorted]
  exact (hle.and hne).imp (fun hab => lt_of_le_of_ne hab.1 hab.2)

/-- C7: for every valid request — the frames query returns rows sorted
ascending by frame number, restricted to the requested range, with at
most one row per (frame, player) pair — every emitted frame number
lies in [frameStart, frameEnd], the emitted frames are strictly
ascending with no duplicates, the frame count equals the number of
distinct frame numbers in the frame source, and within every frame the
players are sorted strictly ascending by playerIndex with no duplicate
playerIndex. -/
theorem C7_output_ordering (framesResult : List FrameRow) (itemFrames : List ItemRow)
    (platformFrames : List PlatformRow) (frameStart frameEnd : Int)
    (hsort : List.Sorted (· ≤ ·) (framesResult.map FrameRow.frame_number))
    (hrange : ∀ r ∈ framesResult, frameStart ≤ r.frame_number ∧ r.frame_number ≤ frameEnd)
    (hnodup : framesResult.Pairwise
      (fun a b => a.frame_number = b.frame_number → a.player_index ≠ b.player_index)) :
    (∀ f ∈ assembleFrames framesResult itemFrames platformFrames,
        frameStart ≤ f.frameNumber ∧ f.frameNumber ≤ frameEnd) ∧
    List.Sorted (· < ·)
      ((assembleFrames framesResult itemFrames platformFrames).map ReplayFrame.frameNumber) ∧
    (assembleFrames framesResult itemFrames platformFrames).length =
      (framesResult.map FrameRow.frame_number).toFinset.card ∧
    (∀ f ∈ assembleFrames framesResult itemFrames platformFrames,
        List.Sorted (· < ·) (f.players.map PlayerEntry.playerIndex)) := by
  refine ⟨?_, ?_, ?_, ?_⟩
  · intro f hf
    rcases mem_assembleFrames _ _ _ f hf with ⟨k, hk, rfl⟩
    have hkL : k ∈ framesResult.map FrameRow.frame_number := (mem_firstOccurs _ _).mp hk
    rcases List.mem_map.mp hkL with ⟨r, hr, he⟩
    obtain ⟨h1, h2⟩ := hrange r hr
    rw [he] at h1 h2
    exact ⟨h1, h2⟩
  · rw [assembleFrames_map_frameNumber]
    exact sorted_firstOccurs _ hsort
  · have hlen : (assembleFrames framesResult itemFrames platformFrames).length =
        (firstOccurs (framesResult.map FrameRow.frame_number)).length := by
      rw [← assembleFrames_map_frameNumber framesResult itemFrames platformFrames,
        List.length_map]
    rw [hlen]
    have hset : (firstOccurs (framesResult.map FrameRow.frame_number)).toFinset =
        (framesResult.map FrameRow.frame_number).toFinset := by
      apply Finset.ext
      intro a
      simp [List.mem_toFinset, mem_firstOccurs]
    rw [← hset, List.toFinset_card_of_nodup (nodup_firstOccurs _)]
  · intro f hf
    rcases mem_assembleFrames _ _ _ f hf with ⟨k, hk, rfl⟩
    exact buildFrame_players_sorted framesResult itemFrames platformFrames k hnodup

/-- Witness for C7 at a concrete frame source with range [1, 2]. -/
theorem C7_output_ordering_witness :
    List.Sorted (· ≤ ·) (orderingWitnessRows.map FrameRow.frame_number) ∧
    (∀ r ∈ orderingWitnessRows, 1 ≤ r.frame_number ∧ r.frame_number ≤ 2) ∧
    orderingWitnessRows.Pairwise
      (fun a b => a.frame_number = b.frame_number → a.player_index ≠ b.player_index) ∧
    ((∀ f ∈ assembleFrames orderingWitnessRows [] [],
        1 ≤ f.frameNumber ∧ f.frameNumber ≤ 2) ∧
     List.Sorted (· < ·)
       ((assembleFrames orderingWitnessRows [] []).map ReplayFrame.frameNumber) ∧
     (assembleFrames orderingWitnessRows [] []).length =
       (orderingWitnessRows.map FrameRow.frame_number).toFinset.card ∧
     (∀ f ∈ assembleFrames orderingWitnessRows [] [],
        List.Sorted (· < ·) (f.players.map PlayerEntry.playerIndex))) :=
  ⟨by decide, by decide, by decide,
   C7_output_ordering orderingWitnessRows [] [] 1 2 (by decide) (by decide) (by decide)⟩

end ReplayLambda
